import Mathlib

/-!
Shallow embedding of the Material Requirements & Scheduling Engine of
`production_planner_gui.py` (class `AdvancedProductionPlanner`).

Numeric quantities are modelled as exact rationals (the idealized exact
arithmetic the spec refers to, "modulo floating-point epsilon").
Calendar dates are modelled as integers (days since an arbitrary epoch),
so `timedelta(days=k)` is integer addition.

Dictionaries that the code only ever reads through `.get(key, 0)` or a
`defaultdict(float)` are modelled as total functions `String → ℚ` with
default value 0; this is observationally equivalent to the Python dicts,
because every read in the engine goes through a zero-defaulting accessor.
-/

namespace ProductionPlanner

/-- A row of the `Заказы` sheet (`orders_df`): the fields the engine reads.
`priority` is the `Срочность` column used by the scheduler. -/
structure Order where
  num : String
  client : String
  productType : String
  area : ℚ
  priority : ℚ
deriving Repr, DecidableEq, Inhabited

/-- The `Потребность материалов` sheet (`materials_df`): the `Материал`
column (stripped, non-null entries, in row order) and the per-order columns,
each a header together with one cell per material row (`none` models a
missing/NaN or non-numeric cell, whose contribution the code swallows). -/
structure MaterialsTable where
  materials : List String
  columns : List (String × List (Option ℚ))
deriving Repr, DecidableEq, Inhabited

/-- The engine state: loaded data plus the mutable reservation ledger
(`reserved_materials`, a `defaultdict(float)`) and the committed-orders set
(`reserved_orders`). -/
structure Planner where
  table : MaterialsTable
  stock : String → ℚ
  reserved : String → ℚ
  reservedOrders : List String
  orders : List Order
  operationTimes : List (String × List (String × ℚ))
  machineCapacity : List (String × ℚ)

/-- Defaults of `set_default_machine_capacity`: hours per day for each machine. -/
def defaultMachineCapacity : List (String × ℚ) :=
  [("Резка", 8), ("Сварка", 10), ("Сборка", 12), ("Покраска", 8), ("Упаковка", 10)]

/-- Defaults of `set_default_operation_times`: hours per m² per operation, per product type. -/
def defaultOperationTimes : List (String × List (String × ℚ)) :=
  [("Окно",  [("Резка", 1/2),  ("Сварка", 4/5),  ("Сборка", 6/5),  ("Покраска", 3/10), ("Упаковка", 1/5)]),
   ("Дверь", [("Резка", 7/10), ("Сварка", 1),    ("Сборка", 3/2),  ("Покраска", 2/5),  ("Упаковка", 3/10)]),
   ("Фасад", [("Резка", 3/5),  ("Сварка", 9/10), ("Сборка", 13/10), ("Покраска", 1/2), ("Упаковка", 1/4)])]

/-- Python `str.strip()` on the underlying character list. -/
def strTrim (s : String) : String :=
  String.mk ((((s.data.dropWhile Char.isWhitespace).reverse.dropWhile Char.isWhitespace).reverse))

/-- Python `str.split()` (no argument): split on whitespace runs, dropping
empty tokens. Structural recursion over the character list. -/
def splitWsAux : List Char → List Char → List String
  | [], acc => if acc.isEmpty then [] else [String.mk acc.reverse]
  | c :: cs, acc =>
      if c.isWhitespace then
        (if acc.isEmpty then [] else [String.mk acc.reverse]) ++ splitWsAux cs []
      else splitWsAux cs (c :: acc)

def headerTokens (h : String) : List String := splitWsAux h.data []

/-- Column matching in `calculate_material_requirements`:
`order_num_clean == col_str or order_num_clean in col_str.split()`. -/
def columnMatches (orderNum header : String) : Bool :=
  strTrim orderNum == strTrim header || (headerTokens (strTrim header)).contains (strTrim orderNum)

/-- A cell's numeric contribution: missing / non-numeric cells contribute 0. -/
def cellVal : Option ℚ → ℚ
  | some v => v
  | none => 0

/-- Row total for one selected order and one material row: the sum of the
cells of that row over all columns matching the order. -/
def rowTotalFor (t : MaterialsTable) (orderNum : String) (i : ℕ) : ℚ :=
  (((t.columns.filter (fun c => columnMatches orderNum c.1)).map
      (fun c => cellVal (c.2.getD i none))).sum)

/-- The contribution actually added to `required_materials`: only strictly
positive row totals are added (`if total_requirement > 0`). -/
def rowContribution (t : MaterialsTable) (orderNum : String) (i : ℕ) : ℚ :=
  if 0 < rowTotalFor t orderNum i then rowTotalFor t orderNum i else 0

/-- The accumulated requirement dict as a zero-defaulted function: for material name `m`,
the sum over selected orders and over the material rows named `m` of the
(positive-gated) row contributions. A name is a key of the Python dict
exactly when this value is strictly positive. -/
def requiredMaterials (t : MaterialsTable) (sel : List String) (m : String) : ℚ :=
  (sel.map (fun o =>
      ((t.materials.enum.filter (fun pr => pr.2 == m)).map
          (fun pr => rowContribution t o pr.1)).sum)).sum

/-- One entry of `material_balance`. Field names follow the report keys:
`Текущий запас`, `Уже зарезервировано`, `Доступно сейчас`,
`Требуется для выбранных`, `Остаток после`. -/
structure BalanceEntry where
  stock : ℚ
  reserved : ℚ
  available : ℚ
  required : ℚ
  remainder : ℚ
deriving Repr, DecidableEq

/-- The result dict of `calculate_material_requirements`, as zero-defaulted
functions. A material is a key of `material_requirements`/`material_balance`
iff `req m > 0`; of `purchase_requirements`/`urgent_purchase` iff the
corresponding option is `some`. -/
structure BalanceReport where
  req : String → ℚ
  balance : String → BalanceEntry
  purchase : String → Option ℚ
  urgent : String → Option ℚ

inductive PlanError
  | emptySelection
  | noMatchingOrders
deriving Repr, DecidableEq

/-- The per-material balance arithmetic of `calculate_material_requirements`:
`available_stock = max(0, current_stock - reserved)`,
`balance_after = available_stock - required`. -/
def balanceEntryFor (p : Planner) (required : ℚ) (m : String) : BalanceEntry :=
  let currentStock := p.stock m
  let reserved := p.reserved m
  let available := max 0 (currentStock - reserved)
  { stock := currentStock
    reserved := reserved
    available := available
    required := required
    remainder := available - required }

/-- The non-error branch of `calculate_material_requirements`. -/
def balanceReportOf (p : Planner) (sel : List String) : BalanceReport :=
  let req := requiredMaterials p.table sel
  { req := req
    balance := fun m => balanceEntryFor p (req m) m
    purchase := fun m =>
      let e := balanceEntryFor p (req m) m
      if 0 < req m ∧ e.remainder < 0 then some |e.remainder| else none
    urgent := fun m =>
      let e := balanceEntryFor p (req m) m
      if 0 < req m ∧ e.remainder < 0 ∧ p.stock m * (1/2) < |e.remainder| then
        some |e.remainder|
      else none }

/-- Operation `calculate_material_requirements`: empty selection returns the error
dict (`{"error": "Не выбраны заказы"}`), modelled as `EmptySelectionError`. -/
def calculateMaterialRequirements (p : Planner) (sel : List String) :
    Except PlanError BalanceReport :=
  if sel.isEmpty then .error .emptySelection else .ok (balanceReportOf p sel)

/-- Operation `reserve_materials` (commit): on success adds each required quantity to the
ledger (`reserved_materials[material] += required`, iterating the keys of
`material_requirements`, i.e. the materials with positive requirement) and
adds the order ids to `reserved_orders`; returns the report computed before
the mutation. On error the state is untouched. -/
def reserveMaterials (p : Planner) (sel : List String) :
    Except PlanError BalanceReport × Planner :=
  match calculateMaterialRequirements p sel with
  | .error e => (.error e, p)
  | .ok r =>
      (.ok r,
        { p with
          reserved := fun m =>
            if 0 < r.req m then p.reserved m + r.req m else p.reserved m
          reservedOrders :=
            p.reservedOrders ++ sel.filter (fun s => !(p.reservedOrders.contains s)) })

/-- Operation `release_materials`: on success subtracts each required quantity from
the ledger, floored at zero (`max(0, reserved - required)`), again iterating
the keys of `material_requirements`, and removes the order ids from
`reserved_orders`. A material absent from the ledger is skipped by the code;
in the zero-defaulted model this coincides with `max 0 (0 - required) = 0`. -/
def releaseMaterials (p : Planner) (sel : List String) :
    Except PlanError BalanceReport × Planner :=
  match calculateMaterialRequirements p sel with
  | .error e => (.error e, p)
  | .ok r =>
      (.ok r,
        { p with
          reserved := fun m =>
            if 0 < r.req m then max 0 (p.reserved m - r.req m) else p.reserved m
          reservedOrders := p.reservedOrders.filter (fun s => !(sel.contains s)) })

/-- A row of the schedule list built by `optimize_production_schedule`:
`Номер заказа`, `Клиент`, `Тип продукции`, `Площадь`, `Начало производства`,
`Окончание производства`, `Дней производства`, `Часов производства`. -/
structure ScheduleEntry where
  orderNum : String
  client : String
  productType : String
  area : ℚ
  startDay : ℤ
  endDay : ℤ
  days : ℤ
  hours : ℚ
deriving Repr, DecidableEq, Inhabited

/-- The result dict of `optimize_production_schedule`. -/
structure ScheduleReport where
  schedule : List ScheduleEntry
  totalOrders : ℕ
  totalDays : ℤ
  totalHours : ℚ
deriving Repr, DecidableEq, Inhabited

/-- Per-order production time in hours: the sum over the product type's
operation-time table of `time_per_sqm * area`, or `area * 2` when the
product type has no table (`Стандартное время`). -/
def productionHours (p : Planner) (o : Order) : ℚ :=
  match p.operationTimes.lookup o.productType with
  | some ops => (ops.map (fun it => it.2 * o.area)).sum
  | none => o.area * 2

/-- Duration in whole days: `int(np.ceil(production_time_hours / 8))`. -/
def daysNeeded (p : Planner) (o : Order) : ℤ :=
  ⌈productionHours p o / 8⌉

/-- The known orders among the selection, in catalog order:
the code's `isin(selected_orders)` filter on `orders_df`. -/
def resolveOrders (p : Planner) (sel : List String) : List Order :=
  p.orders.filter (fun o => sel.contains o.num)

/-- Ascending sort by the `Срочность` field, the code's `sort_values` with
ascending order. The code's sort (pandas' default quicksort) guarantees an
ascending permutation of the input but does not guarantee which permutation
when priorities tie; an executable model must fix one, and this one fixes
the merge-sort permutation. The theorems below about the resulting schedule
rely only on properties shared by every ascending permutation (per-entry
hours/days, the sequential layout arithmetic), never on the tie order. -/
def sortByPriority (l : List Order) : List Order :=
  l.mergeSort (fun a b => decide (a.priority ≤ b.priority))

/-- The schedule layout loop: each order occupies
`[current_date, current_date + days_needed]` and `current_date` then
advances by `days_needed + 1` (one changeover day). -/
def layoutSchedule (p : Planner) : ℤ → List Order → List ScheduleEntry
  | _, [] => []
  | current, o :: rest =>
      let d := daysNeeded p o
      { orderNum := o.num
        client := o.client
        productType := o.productType
        area := o.area
        startDay := current
        endDay := current + d
        days := d
        hours := productionHours p o } :: layoutSchedule p (current + d + 1) rest

/-- The value of `current_date` after the layout loop. -/
def finalDate (p : Planner) : ℤ → List Order → ℤ
  | current, [] => current
  | current, o :: rest => finalDate p (current + daysNeeded p o + 1) rest

/-- The non-error branch of `optimize_production_schedule`:
`total_days = (current_date - start_date).days` is taken from the loop's
final `current_date`. -/
def scheduleReportOf (p : Planner) (sel : List String) (startDate : ℤ) :
    ScheduleReport :=
  let sorted := sortByPriority (resolveOrders p sel)
  let sched := layoutSchedule p startDate sorted
  { schedule := sched
    totalOrders := sched.length
    totalDays := finalDate p startDate sorted - startDate
    totalHours := (sched.map (fun e => e.hours)).sum }

/-- Operation `optimize_production_schedule`: errors (`Не найдены данные по
выбранным заказам`) when no selected identifier resolves to a known order. -/
def optimizeProductionSchedule (p : Planner) (sel : List String) (startDate : ℤ) :
    Except PlanError ScheduleReport :=
  if (resolveOrders p sel).isEmpty then .error .noMatchingOrders
  else .ok (scheduleReportOf p sel startDate)

/-- One entry of the `calculate_machine_utilization` result. -/
structure MachineUtil where
  workloadHours : ℚ
  capacityHours : ℚ
  utilizationPercent : ℚ
deriving Repr, DecidableEq

/-- Workload of one machine: over every scheduled order whose product
type has an operation-time table, the entry for `machine` (if any) times the
order's area. Only machines in `machine_capacity` are accumulated, which for
a configured machine is exactly this sum. -/
def machineWorkload (p : Planner) (sched : List ScheduleEntry) (machine : String) : ℚ :=
  (sched.map (fun e =>
      match p.operationTimes.lookup e.productType with
      | some ops => ((ops.filter (fun it => it.1 == machine)).map
          (fun it => it.2 * e.area)).sum
      | none => 0)).sum

/-- Operation `calculate_machine_utilization` for one machine:
`capacity = machine_capacity.get(machine, 8) * len(schedule)`,
`utilization = min(100, workload / capacity * 100) if capacity > 0 else 0`. -/
def calculateMachineUtilization (p : Planner) (sched : List ScheduleEntry)
    (machine : String) : MachineUtil :=
  let workload := machineWorkload p sched machine
  let capacity := ((p.machineCapacity.lookup machine).getD 8) * (sched.length : ℚ)
  { workloadHours := workload
    capacityHours := capacity
    utilizationPercent :=
      if 0 < capacity then min 100 (workload / capacity * 100) else 0 }

/-- A ledger-mutating operation: a commit (`reserve_materials`) or a release
(`release_materials`) of a selection. -/
inductive LedgerOp
  | commit (sel : List String)
  | release (sel : List String)

/-- State transition of one ledger operation. -/
def applyOp (p : Planner) : LedgerOp → Planner
  | .commit sel => (reserveMaterials p sel).2
  | .release sel => (releaseMaterials p sel).2

/-- State after a sequence of commit/release operations. -/
def applyOps (p : Planner) (ops : List LedgerOp) : Planner :=
  ops.foldl applyOp p

/-- Scenario A requirement table: one column headed by order number 1001,
one material row with requirement 10. -/
def scenarioTable : MaterialsTable :=
  { materials := ["Стекло"], columns := [("1001", [some 10])] }

/-- The single test order: product type with a default operation-time table,
area 2 m², priority 1. -/
def order1001 : Order :=
  { num := "1001", client := "Клиент", productType := "Окно", area := 2, priority := 1 }

/-- Scenario A planner: stock 15 for the single material, empty ledger. -/
def scenarioA : Planner :=
  { table := scenarioTable
    stock := fun m => if m = "Стекло" then 15 else 0
    reserved := fun _ => 0
    reservedOrders := []
    orders := [order1001]
    operationTimes := defaultOperationTimes
    machineCapacity := defaultMachineCapacity }

/-- Scenario B planner: like scenario A but stock 5, so the requirement of
10 leaves a shortfall of 5, which is urgent (5 > 0.5 * 5). -/
def scenarioB : Planner :=
  { table := scenarioTable
    stock := fun m => if m = "Стекло" then 5 else 0
    reserved := fun _ => 0
    reservedOrders := []
    orders := [order1001]
    operationTimes := defaultOperationTimes
    machineCapacity := defaultMachineCapacity }

/-- C9: invoked with an empty order selection, the aggregator, commit and
release each return the explicit empty-selection failure result, and commit
and release leave the whole planner state (ledger and committed-orders set
included) unchanged. -/
theorem empty_selection_rejected (p : Planner) :
    calculateMaterialRequirements p [] = .error .emptySelection
    ∧ reserveMaterials p [] = (.error .emptySelection, p)
    ∧ releaseMaterials p [] = (.error .emptySelection, p) :=
  ⟨rfl, rfl, rfl⟩

/-- C10: the report returned by commit and by release is the balance report
of the pre-mutation state: its reserved and available figures are the ledger
values before the call, while the post-state ledger of commit differs by the
required quantity for every material actually required. -/
theorem reports_reflect_prestate (p : Planner) (sel : List String) (m : String)
    (hsel : sel ≠ []) :
    (reserveMaterials p sel).1 = .ok (balanceReportOf p sel)
    ∧ (releaseMaterials p sel).1 = .ok (balanceReportOf p sel)
    ∧ ((balanceReportOf p sel).balance m).reserved = p.reserved m
    ∧ ((balanceReportOf p sel).balance m).available = max 0 (p.stock m - p.reserved m)
    ∧ (0 < (balanceReportOf p sel).req m →
        ((reserveMaterials p sel).2).reserved m
          = p.reserved m + (balanceReportOf p sel).req m) := by
  have hne : sel.isEmpty = false := by
    cases sel with
    | nil => exact absurd rfl hsel
    | cons a l => rfl
  refine ⟨?_, ?_, rfl, rfl, ?_⟩
  · simp [reserveMaterials, calculateMaterialRequirements, hne]
  · simp [releaseMaterials, calculateMaterialRequirements, hne]
  · intro h
    simp only [balanceReportOf] at h
    simp [reserveMaterials, calculateMaterialRequirements, hne, balanceReportOf, h]

/-- Witness for C10 at scenario A: the selection is non-empty and the
required quantity is positive, so commit visibly changes the ledger while
the returned report keeps the pre-call reserved value. -/
theorem reports_reflect_prestate_witness :
    ((balanceReportOf scenarioA ["1001"]).balance "Стекло").reserved
      = scenarioA.reserved "Стекло" :=
  (reports_reflect_prestate scenarioA ["1001"] "Стекло" (by decide)).2.2.1

/-- C2: in every balance entry, available = max 0 (stock - reserved) and
remainder = available - required exactly; hence available + reserved = stock
whenever reserved ≤ stock. -/
theorem balance_consistency (p : Planner) (sel : List String) (m : String) :
    ((balanceReportOf p sel).balance m).available
      = max 0 (((balanceReportOf p sel).balance m).stock
          - ((balanceReportOf p sel).balance m).reserved)
    ∧ ((balanceReportOf p sel).balance m).remainder
      = ((balanceReportOf p sel).balance m).available
          - ((balanceReportOf p sel).balance m).required
    ∧ (((balanceReportOf p sel).balance m).reserved
          ≤ ((balanceReportOf p sel).balance m).stock →
        ((balanceReportOf p sel).balance m).available
            + ((balanceReportOf p sel).balance m).reserved
          = ((balanceReportOf p sel).balance m).stock) := by
  refine ⟨rfl, rfl, ?_⟩
  intro h
  simp only [balanceReportOf, balanceEntryFor] at h ⊢
  rw [max_eq_right (sub_nonneg.mpr h)]
  ring

/-- Witness for C2 at scenario A: reserved (0) ≤ stock (15) and the
conservation equation holds there. -/
theorem balance_consistency_witness :
    ((balanceReportOf scenarioA ["1001"]).balance "Стекло").reserved
      ≤ ((balanceReportOf scenarioA ["1001"]).balance "Стекло").stock
    ∧ ((balanceReportOf scenarioA ["1001"]).balance "Стекло").available
        + ((balanceReportOf scenarioA ["1001"]).balance "Стекло").reserved
      = ((balanceReportOf scenarioA ["1001"]).balance "Стекло").stock :=
  ⟨by decide, (balance_consistency scenarioA ["1001"] "Стекло").2.2 (by decide)⟩

/-- C3: a material of the report (positive requirement) appears in
purchase_requirements iff its remainder is strictly negative, with value
equal to the absolute remainder; it appears in urgent_purchase iff
additionally the absolute remainder exceeds half the stock, with the same
value. -/
theorem purchase_and_urgent_membership (p : Planner) (sel : List String)
    (m : String) (v : ℚ) (hm : 0 < (balanceReportOf p sel).req m) :
    ((balanceReportOf p sel).purchase m = some v ↔
        ((balanceReportOf p sel).balance m).remainder < 0
        ∧ v = |((balanceReportOf p sel).balance m).remainder|)
    ∧ ((balanceReportOf p sel).urgent m = some v ↔
        ((balanceReportOf p sel).balance m).remainder < 0
        ∧ ((balanceReportOf p sel).balance m).stock * (1/2)
            < |((balanceReportOf p sel).balance m).remainder|
        ∧ v = |((balanceReportOf p sel).balance m).remainder|) := by
  simp only [balanceReportOf] at hm ⊢
  constructor
  · by_cases hr : (balanceEntryFor p (requiredMaterials p.table sel m) m).remainder < 0
    · rw [if_pos ⟨hm, hr⟩]
      constructor
      · intro hv
        exact ⟨hr, (Option.some_inj.mp hv).symm⟩
      · intro hv
        exact congrArg some hv.2.symm
    · rw [if_neg (by tauto)]
      constructor
      · intro hv
        exact absurd hv (by simp)
      · intro hv
        exact absurd hv.1 hr
  · by_cases hr : (balanceEntryFor p (requiredMaterials p.table sel m) m).remainder < 0
      ∧ p.stock m * (1/2) < |(balanceEntryFor p (requiredMaterials p.table sel m) m).remainder|
    · rw [if_pos ⟨hm, hr.1, hr.2⟩]
      constructor
      · intro hv
        exact ⟨hr.1, hr.2, (Option.some_inj.mp hv).symm⟩
      · intro hv
        exact congrArg some hv.2.2.symm
    · rw [if_neg (by tauto)]
      constructor
      · intro hv
        exact absurd hv (by simp)
      · intro hv
        exact absurd ⟨hv.1, hv.2.1⟩ hr

/-- Witness for C3 at scenario B: requirement 10 against stock 5 gives
remainder -5, so the material is a purchase requirement with value 5, and
urgent since 5 > 0.5 * 5. -/
theorem purchase_and_urgent_membership_witness :
    ((balanceReportOf scenarioB ["1001"]).purchase "Стекло" = some 5 ↔
        ((balanceReportOf scenarioB ["1001"]).balance "Стекло").remainder < 0
        ∧ (5:ℚ) = |((balanceReportOf scenarioB ["1001"]).balance "Стекло").remainder|)
    ∧ ((balanceReportOf scenarioB ["1001"]).urgent "Стекло" = some 5 ↔
        ((balanceReportOf scenarioB ["1001"]).balance "Стекло").remainder < 0
        ∧ ((balanceReportOf scenarioB ["1001"]).balance "Стекло").stock * (1/2)
            < |((balanceReportOf scenarioB ["1001"]).balance "Стекло").remainder|
        ∧ (5:ℚ) = |((balanceReportOf scenarioB ["1001"]).balance "Стекло").remainder|) :=
  purchase_and_urgent_membership scenarioB ["1001"] "Стекло" 5 (by
    simp [balanceReportOf, requiredMaterials, scenarioB, scenarioTable, rowContribution,
      rowTotalFor, columnMatches, cellVal, strTrim, headerTokens, splitWsAux,
      List.enum, List.enumFrom])

/-- C1: committing a non-empty selection and then releasing the same
selection returns every material's reserved quantity to its prior value,
for any ledger state with non-negative reserved quantities (the only
reachable ones). -/
theorem commit_release_roundtrip (p : Planner) (sel : List String) (m : String)
    (hsel : sel ≠ []) (h0 : 0 ≤ p.reserved m) :
    ((releaseMaterials (reserveMaterials p sel).2 sel).2).reserved m = p.reserved m := by
  have hne : sel.isEmpty = false := by
    cases sel with
    | nil => exact absurd rfl hsel
    | cons a l => rfl
  simp only [reserveMaterials, releaseMaterials, calculateMaterialRequirements, hne,
    Bool.false_eq_true, if_false, balanceReportOf]
  by_cases hq : 0 < requiredMaterials p.table sel m
  · simp only [hq, if_pos, add_sub_cancel_right]
    exact max_eq_right h0
  · simp only [hq, if_neg, ite_false]

/-- Witness for C1 at scenario A: the ledger value for the material returns
to its initial 0 after commit of order 1001 followed by release. -/
theorem commit_release_roundtrip_witness :
    ((releaseMaterials (reserveMaterials scenarioA ["1001"]).2 ["1001"]).2).reserved "Стекло"
      = scenarioA.reserved "Стекло" :=
  commit_release_roundtrip scenarioA ["1001"] "Стекло" (by decide) (by decide)

/-- C4: reserved ledger quantities stay non-negative under any sequence of
commit and release operations, because release floors each entry at zero. -/
theorem ledger_nonneg_after_ops (p : Planner) (ops : List LedgerOp) (m : String)
    (h0 : 0 ≤ p.reserved m) : 0 ≤ (applyOps p ops).reserved m := by
  induction ops generalizing p with
  | nil => exact h0
  | cons op rest ih =>
    have hstep : 0 ≤ (applyOp p op).reserved m := by
      cases op with
      | commit sel =>
        simp only [applyOp]
        rcases hc : calculateMaterialRequirements p sel with e | r
        · simp only [reserveMaterials, hc]
          exact h0
        · simp only [reserveMaterials, hc]
          by_cases hq : 0 < r.req m
          · simpa [hq] using add_nonneg h0 (le_of_lt hq)
          · simpa [hq] using h0
      | release sel =>
        simp only [applyOp]
        rcases hc : calculateMaterialRequirements p sel with e | r
        · simp only [releaseMaterials, hc]
          exact h0
        · simp only [releaseMaterials, hc]
          by_cases hq : 0 < r.req m
          · simp [hq]
          · simpa [hq] using h0
    have : applyOps p (op :: rest) = applyOps (applyOp p op) rest := by
      simp [applyOps]
    rw [this]
    exact ih _ hstep

/-- Witness for C4: after committing order 1001 and releasing it twice
(the second release over-releases and is floored), the ledger value is
still non-negative. -/
theorem ledger_nonneg_after_ops_witness :
    0 ≤ (applyOps scenarioA
        [LedgerOp.commit ["1001"], LedgerOp.release ["1001"],
         LedgerOp.release ["1001"]]).reserved "Стекло" :=
  ledger_nonneg_after_ops scenarioA
    [LedgerOp.commit ["1001"], LedgerOp.release ["1001"], LedgerOp.release ["1001"]]
    "Стекло" (by decide)

lemma finalDate_eq_getLast (p : Planner) (d : ℤ) (l : List Order)
    (e : ScheduleEntry) (h : (layoutSchedule p d l).getLast? = some e) :
    finalDate p d l = e.endDay + 1 := by
  induction l generalizing d with
  | nil => simp [layoutSchedule] at h
  | cons o rest ih =>
    cases rest with
    | nil =>
      simp only [layoutSchedule, List.getLast?_singleton, Option.some_inj] at h
      rw [← h]
      rfl
    | cons o2 rest2 =>
      have hre : finalDate p d (o :: o2 :: rest2)
          = finalDate p (d + daysNeeded p o + 1) (o2 :: rest2) := rfl
      rw [hre]
      apply ih
      simp only [layoutSchedule, List.getLast?_cons_cons] at h ⊢
      exact h

lemma layoutSchedule_hours_days (p : Planner) (d : ℤ) (l : List Order) :
    (layoutSchedule p d l).map (fun e => e.hours) = l.map (productionHours p)
    ∧ ∀ e ∈ layoutSchedule p d l, e.days = ⌈e.hours / 8⌉ := by
  induction l generalizing d with
  | nil => simp [layoutSchedule]
  | cons o rest ih =>
    refine ⟨?_, ?_⟩
    · simp [layoutSchedule, (ih (d + daysNeeded p o + 1)).1]
    · intro e he
      simp only [layoutSchedule, List.mem_cons] at he
      rcases he with he | he
      · rw [he]
        rfl
      · exact (ih (d + daysNeeded p o + 1)).2 e he

lemma scenarioA_hours : productionHours scenarioA order1001 = 6 := by
  norm_num [productionHours, scenarioA, order1001, defaultOperationTimes, List.lookup]

lemma scenarioA_days : daysNeeded scenarioA order1001 = 1 := by
  rw [daysNeeded, scenarioA_hours]
  rw [Int.ceil_eq_iff]
  norm_num

lemma scenarioA_resolve : resolveOrders scenarioA ["1001"] = [order1001] := by decide

lemma scenarioA_sorted :
    sortByPriority (resolveOrders scenarioA ["1001"]) = [order1001] := by
  rw [scenarioA_resolve]
  simp [sortByPriority]

lemma scenarioA_schedule :
    (scheduleReportOf scenarioA ["1001"] 0).schedule
      = [{ orderNum := "1001", client := "Клиент", productType := "Окно",
           area := 2, startDay := 0, endDay := 1, days := 1, hours := 6 }] := by
  show layoutSchedule scenarioA 0 (sortByPriority (resolveOrders scenarioA ["1001"])) = _
  rw [scenarioA_sorted]
  simp [layoutSchedule, scenarioA_days, scenarioA_hours, order1001]
  exact ⟨scenarioA_days, scenarioA_hours⟩

lemma scenarioA_totalDays : (scheduleReportOf scenarioA ["1001"] 0).totalDays = 2 := by
  show finalDate scenarioA 0 (sortByPriority (resolveOrders scenarioA ["1001"])) - 0 = 2
  rw [scenarioA_sorted]
  norm_num [finalDate, scenarioA_days]

/-- C6 counterexample: at scenario A the single scheduled order ends on day
1 (one day after a day-0 start), but total_days is 2, not 1 - 0: the loop's
final current date includes the one-day changeover after the last order. -/
theorem total_days_counterexample :
    (scheduleReportOf scenarioA ["1001"] 0).schedule.getLast?.map (fun e => e.endDay)
      = some 1
    ∧ (scheduleReportOf scenarioA ["1001"] 0).totalDays ≠ 1 - 0 := by
  constructor
  · rw [scenarioA_schedule]
    rfl
  · rw [scenarioA_totalDays]
    decide

/-- C6 amended: total_days equals the last entry's end date minus the
requested start date plus one (the trailing changeover day), whenever the
schedule is non-empty. -/
theorem total_days_includes_changeover (p : Planner) (sel : List String)
    (d : ℤ) (e : ScheduleEntry)
    (h : (scheduleReportOf p sel d).schedule.getLast? = some e) :
    (scheduleReportOf p sel d).totalDays = e.endDay - d + 1 := by
  have hfin := finalDate_eq_getLast p d (sortByPriority (resolveOrders p sel)) e h
  show finalDate p d (sortByPriority (resolveOrders p sel)) - d = e.endDay - d + 1
  rw [hfin]
  ring

/-- Witness for the amended C6 at scenario A: total_days = 1 - 0 + 1 = 2. -/
theorem total_days_includes_changeover_witness :
    (scheduleReportOf scenarioA ["1001"] 0).totalDays
      = ({ orderNum := "1001", client := "Клиент", productType := "Окно",
           area := 2, startDay := 0, endDay := 1, days := 1,
           hours := 6 } : ScheduleEntry).endDay - 0 + 1 :=
  total_days_includes_changeover scenarioA ["1001"] 0 _
    (by rw [scenarioA_schedule]; rfl)

/-- C7: each schedule entry's hours are the per-order production hours (sum
of the product type's operation times per m² times the order's area, with a
flat 2 hours per m² fallback when no table is configured), and each entry's
duration in days is the hours divided by 8, rounded up. -/
theorem schedule_hours_and_days (p : Planner) (sel : List String) (d : ℤ) :
    (scheduleReportOf p sel d).schedule.map (fun e => e.hours)
      = (sortByPriority (resolveOrders p sel)).map (productionHours p)
    ∧ (∀ e ∈ (scheduleReportOf p sel d).schedule, e.days = ⌈e.hours / 8⌉)
    ∧ (∀ (o : Order) (ops : List (String × ℚ)),
        p.operationTimes.lookup o.productType = some ops →
        productionHours p o = (ops.map (fun it => it.2 * o.area)).sum)
    ∧ (∀ o : Order, p.operationTimes.lookup o.productType = none →
        productionHours p o = o.area * 2) := by
  refine ⟨(layoutSchedule_hours_days p d _).1, (layoutSchedule_hours_days p d _).2,
    ?_, ?_⟩
  · intro o ops hops
    simp [productionHours, hops]
  · intro o hnone
    simp [productionHours, hnone]

/-- Witness for C7 at scenario A: the single entry has 6 hours (3 hours per
m² over the default operation table for the product type, times 2 m²) and
1 day, which is the ceiling of 6 / 8. -/
theorem schedule_hours_and_days_witness :
    ({ orderNum := "1001", client := "Клиент", productType := "Окно",
       area := 2, startDay := 0, endDay := 1, days := 1,
       hours := 6 } : ScheduleEntry).days
      = ⌈({ orderNum := "1001", client := "Клиент", productType := "Окно",
            area := 2, startDay := 0, endDay := 1, days := 1,
            hours := 6 } : ScheduleEntry).hours / 8⌉ :=
  (schedule_hours_and_days scenarioA ["1001"] 0).2.1 _
    (by rw [scenarioA_schedule]; exact List.mem_singleton_self _)

/-- C8: for every configured machine, capacity_hours is the configured daily
capacity times the number of scheduled orders, and utilization_percent is
min 100 (workload / capacity * 100) when capacity is positive and 0 when
capacity is zero. -/
theorem utilization_capacity_and_percent (p : Planner)
    (sched : List ScheduleEntry) (machine : String) (c : ℚ)
    (hc : p.machineCapacity.lookup machine = some c) :
    (calculateMachineUtilization p sched machine).capacityHours
      = c * (sched.length : ℚ)
    ∧ (0 < (calculateMachineUtilization p sched machine).capacityHours →
        (calculateMachineUtilization p sched machine).utilizationPercent
          = min 100 ((calculateMachineUtilization p sched machine).workloadHours
              / (calculateMachineUtilization p sched machine).capacityHours * 100))
    ∧ ((calculateMachineUtilization p sched machine).capacityHours = 0 →
        (calculateMachineUtilization p sched machine).utilizationPercent = 0) := by
  have hC : (calculateMachineUtilization p sched machine).capacityHours
      = c * (sched.length : ℚ) := by
    simp [calculateMachineUtilization, hc]
  have hW : (calculateMachineUtilization p sched machine).workloadHours
      = machineWorkload p sched machine := rfl
  have hU : (calculateMachineUtilization p sched machine).utilizationPercent
      = if 0 < c * (sched.length : ℚ)
        then min 100 (machineWorkload p sched machine / (c * (sched.length : ℚ)) * 100)
        else 0 := by
    simp [calculateMachineUtilization, hc]
  refine ⟨hC, ?_, ?_⟩
  · intro hpos
    rw [hC] at hpos
    rw [hU, if_pos hpos, hW, hC]
  · intro hz
    rw [hC] at hz
    have hneg : ¬ 0 < c * (sched.length : ℚ) := by simp [hz]
    rw [hU, if_neg hneg]

/-- Witness for C8 at scenario A with the first default machine: its daily
capacity is 8, the schedule has one order, so capacity is 8 and positive,
and the percent formula applies. -/
theorem utilization_capacity_and_percent_witness :
    (calculateMachineUtilization scenarioA
        (scheduleReportOf scenarioA ["1001"] 0).schedule "Резка").utilizationPercent
      = min 100
          ((calculateMachineUtilization scenarioA
              (scheduleReportOf scenarioA ["1001"] 0).schedule "Резка").workloadHours
            / (calculateMachineUtilization scenarioA
                (scheduleReportOf scenarioA ["1001"] 0).schedule "Резка").capacityHours
            * 100) :=
  (utilization_capacity_and_percent scenarioA
      (scheduleReportOf scenarioA ["1001"] 0).schedule "Резка" 8 (by decide)).2.1
    (by
      rw [(utilization_capacity_and_percent scenarioA
          (scheduleReportOf scenarioA ["1001"] 0).schedule "Резка" 8 (by decide)).1]
      rw [scenarioA_schedule]
      norm_num)

end ProductionPlanner
